import Mathlib

/-!
# NoCrate — verification of the Super I/O and ASUS-WMI sensor layer

Shallow embedding of the sensor-decoding core of the NoCrate repository
(`src-tauri/src/sio/*.rs` and `src-tauri/src/wmi/*.rs`) together with
proofs of the specification's testable properties.

Machine integers are modelled as `Nat` with explicit `% 256` masking where
the hardware returns a byte; fallible Rust functions (`Result<T, NoCrateError>`)
are modelled as `Except String`, carrying the error message of the
corresponding `NoCrateError` payload.  Port I/O through the kernel driver
(`DriverHandle`) is modelled by an explicit channel interface `Drv σ`
with state passing: the program code is written against the interface,
exactly mirroring the sequence of `read_io_port_byte` / `write_io_port_byte`
calls in the Rust source, and theorems instantiate it with fake channels
(a register-latch model of the real hardware, or a read-stream model
with a write log for the detection protocol).
-/

namespace NoCrate

/-- A driver channel: models `DriverHandle`'s port-byte I/O plus
`enable_lpc_io_decode`, over an explicit channel state `σ`.
`enableLpc` returns the state reached plus an optional error because its
caller (`try_nuvoton`) ignores the error but keeps the side effects. -/
structure Drv (σ : Type) where
  writeByte : σ → Nat → Nat → Except String σ
  readByte : σ → Nat → Except String (Nat × σ)
  enableLpc : σ → Nat → σ × Option String

/-- `FanReading` from `sio/chips.rs` (rpm is a `u32`). -/
structure FanReading where
  name : String
  rpm : Nat
  channel : Nat
  deriving Repr, DecidableEq

/-- `TempReading` from `sio/chips.rs`.  The Rust field is an `f32`, but every
value the decoders produce is an integer in `[-128, 127]` plus an optional
`0.5`, all exactly representable in `f32` and compared against the exact
constants `-40.0` / `125.0`; we therefore model `temp_c` as a rational. -/
structure TempReading where
  name : String
  temp_c : ℚ
  channel : Nat
  deriving Repr, DecidableEq

/-- Reinterpret a byte as Rust's `as i8` cast (two's complement). -/
def as_i8 (n : Nat) : Int :=
  if n % 256 < 128 then (n % 256 : Int) else (n % 256 : Int) - 256

-- ---------------------------------------------------------------------------
-- Nuvoton chip (sio/nuvoton.rs)
-- ---------------------------------------------------------------------------

/-- `NuvotonChip` (sio/nuvoton.rs). -/
structure NuvotonChip where
  name : String
  chip_id : Nat
  base_addr : Nat
  deriving Repr, DecidableEq

/-- `FanChannel` (sio/nuvoton.rs): tachometer register pair in Bank 4. -/
structure FanChannel where
  name : String
  count_high_reg : Nat
  count_low_reg : Nat
  channel : Nat

/-- `TempChannel` (sio/nuvoton.rs). -/
structure TempChannel where
  name : String
  bank : Nat
  int_reg : Nat
  frac_bank : Nat
  frac_reg : Nat
  channel : Nat

/-- `FAN_CHANNELS` (sio/nuvoton.rs): the 7 Nuvoton fan channels. -/
def NUVOTON_FAN_CHANNELS : List FanChannel :=
  [ ⟨"CPU Fan", 0xC0, 0xC1, 0⟩,
    ⟨"机箱 #1", 0xC2, 0xC3, 1⟩,
    ⟨"机箱 #2", 0xC4, 0xC5, 2⟩,
    ⟨"机箱 #3", 0xC6, 0xC7, 3⟩,
    ⟨"机箱 #4", 0xC8, 0xC9, 4⟩,
    ⟨"机箱 #5", 0xCA, 0xCB, 5⟩,
    ⟨"机箱 #6", 0xCC, 0xCD, 6⟩ ]

/-- `TEMP_CHANNELS` (sio/nuvoton.rs): the 6 Nuvoton temperature channels. -/
def NUVOTON_TEMP_CHANNELS : List TempChannel :=
  [ ⟨"主板", 0, 0x73, 0, 0x74, 0⟩,
    ⟨"CPU", 0, 0x75, 0, 0x76, 1⟩,
    ⟨"辅助", 0, 0x77, 0, 0x78, 2⟩,
    ⟨"辅助 1", 1, 0x50, 1, 0x51, 3⟩,
    ⟨"辅助 2", 2, 0x50, 2, 0x51, 4⟩,
    ⟨"辅助 3", 6, 0x50, 6, 0x51, 5⟩ ]

/-- `NuvotonChip::read_register`: select bank via `base+0x4E`, write the
register index to `base+0x05`, read the value from `base+0x06`. -/
def NuvotonChip.read_register {σ : Type} (c : NuvotonChip) (d : Drv σ) (s : σ)
    (bank reg : Nat) : Except String (Nat × σ) := do
  let s ← d.writeByte s (c.base_addr + 0x4E) bank
  let s ← d.writeByte s (c.base_addr + 0x05) reg
  d.readByte s (c.base_addr + 0x06)

/-- Loop body of `NuvotonChip::read_fans` over the fan-channel table. -/
def NuvotonChip.read_fans_go {σ : Type} (c : NuvotonChip) (d : Drv σ) :
    List FanChannel → σ → Except String (List FanReading × σ)
  | [], s => .ok ([], s)
  | fc :: rest, s => do
    let (high, s) ← c.read_register d s 4 fc.count_high_reg
    let (low, s) ← c.read_register d s 4 fc.count_low_reg
    let count := (high <<< 8) ||| low
    let rpm := if count = 0 ∨ count = 0xFFFF then 0 else 1350000 / count
    let (fans, s) ← c.read_fans_go d rest s
    .ok (⟨fc.name, rpm, fc.channel⟩ :: fans, s)

/-- `NuvotonChip::read_fans` (sio/nuvoton.rs lines 97–121). -/
def NuvotonChip.read_fans {σ : Type} (c : NuvotonChip) (d : Drv σ) (s : σ) :
    Except String (List FanReading × σ) :=
  c.read_fans_go d NUVOTON_FAN_CHANNELS s

/-- Loop body of `NuvotonChip::read_temps` over the temperature-channel table. -/
def NuvotonChip.read_temps_go {σ : Type} (c : NuvotonChip) (d : Drv σ) :
    List TempChannel → σ → Except String (List TempReading × σ)
  | [], s => .ok ([], s)
  | tc :: rest, s => do
    let (int_raw, s) ← c.read_register d s tc.bank tc.int_reg
    let (frac_val, s) ← c.read_register d s tc.frac_bank tc.frac_reg
    let int_val := as_i8 int_raw
    let frac : ℚ := if frac_val &&& 0x80 ≠ 0 then 1/2 else 0
    let temp_c : ℚ := (int_val : ℚ) + frac
    let (temps, s) ← c.read_temps_go d rest s
    if temp_c < -40 ∨ temp_c > 125 then .ok (temps, s)
    else .ok (⟨tc.name, temp_c, tc.channel⟩ :: temps, s)

/-- `NuvotonChip::read_temps` (sio/nuvoton.rs lines 123–148). -/
def NuvotonChip.read_temps {σ : Type} (c : NuvotonChip) (d : Drv σ) (s : σ) :
    Except String (List TempReading × σ) :=
  c.read_temps_go d NUVOTON_TEMP_CHANNELS s

-- ---------------------------------------------------------------------------
-- ITE chip (sio/ite.rs)
-- ---------------------------------------------------------------------------

/-- `IteChip` (sio/ite.rs). -/
structure IteChip where
  name : String
  chip_id : Nat
  base_addr : Nat
  deriving Repr, DecidableEq

/-- `IteFanChannel` (sio/ite.rs). -/
structure IteFanChannel where
  name : String
  count_low_reg : Nat
  count_high_reg : Nat
  channel : Nat

/-- `IteTempChannel` (sio/ite.rs). -/
structure IteTempChannel where
  name : String
  reg : Nat
  channel : Nat

/-- `FAN_CHANNELS` (sio/ite.rs): the 5 common ITE fan channels. -/
def ITE_FAN_CHANNELS : List IteFanChannel :=
  [ ⟨"CPU Fan", 0x0D, 0x18, 0⟩,
    ⟨"机箱 #1", 0x0E, 0x19, 1⟩,
    ⟨"机箱 #2", 0x0F, 0x1A, 2⟩,
    ⟨"机箱 #3", 0x80, 0x81, 3⟩,
    ⟨"机箱 #4", 0x82, 0x83, 4⟩ ]

/-- `FAN_CHANNELS_EXT` (sio/ite.rs): the sixth fan channel. -/
def ITE_FAN_CHANNELS_EXT : List IteFanChannel :=
  [ ⟨"机箱 #5", 0x84, 0x85, 5⟩ ]

/-- `TEMP_CHANNELS` (sio/ite.rs). -/
def ITE_TEMP_CHANNELS : List IteTempChannel :=
  [ ⟨"CPU", 0x29, 0⟩,
    ⟨"主板", 0x2A, 1⟩,
    ⟨"辅助", 0x2B, 2⟩ ]

/-- `IteChip::read_register`: write the register index to `base+0x05`,
read the value from `base+0x06`. -/
def IteChip.read_register {σ : Type} (c : IteChip) (d : Drv σ) (s : σ)
    (reg : Nat) : Except String (Nat × σ) := do
  let s ← d.writeByte s (c.base_addr + 0x05) reg
  d.readByte s (c.base_addr + 0x06)

/-- `IteChip::has_6_fans` (sio/ite.rs lines 152–157). -/
def IteChip.has_6_fans (c : IteChip) : Bool :=
  c.chip_id == 0x8689 || c.chip_id == 0x8695

/-- Loop body of `IteChip::read_fans`; `is_16bit` was read once before the loop. -/
def IteChip.read_fans_go {σ : Type} (c : IteChip) (d : Drv σ) (is_16bit : Bool) :
    List IteFanChannel → σ → Except String (List FanReading × σ)
  | [], s => .ok ([], s)
  | fc :: rest, s => do
    let (low, s) ← c.read_register d s fc.count_low_reg
    let (count, s) ←
      if is_16bit then do
        let (high, s) ← c.read_register d s fc.count_high_reg
        pure ((high <<< 8) ||| low, s)
      else
        pure (low, s)
    let rpm := if count = 0 ∨ count = 0xFFFF then 0 else 1350000 / count
    let (fans, s) ← c.read_fans_go d is_16bit rest s
    .ok (⟨fc.name, rpm, fc.channel⟩ :: fans, s)

/-- `IteChip::read_fans` (sio/ite.rs lines 84–127): reads configuration
register `0x0C` (bit 6 = 16-bit counter mode), then every fan channel,
including the sixth channel on chips reporting 6 fans. -/
def IteChip.read_fans {σ : Type} (c : IteChip) (d : Drv σ) (s : σ) :
    Except String (List FanReading × σ) := do
  let (config, s) ← c.read_register d s 0x0C
  let is_16bit : Bool := config &&& 0x40 != 0
  let channels := if c.has_6_fans then ITE_FAN_CHANNELS ++ ITE_FAN_CHANNELS_EXT
    else ITE_FAN_CHANNELS
  c.read_fans_go d is_16bit channels s

/-- Loop body of `IteChip::read_temps`. -/
def IteChip.read_temps_go {σ : Type} (c : IteChip) (d : Drv σ) :
    List IteTempChannel → σ → Except String (List TempReading × σ)
  | [], s => .ok ([], s)
  | tc :: rest, s => do
    let (raw, s) ← c.read_register d s tc.reg
    let temp_c : ℚ := (as_i8 raw : ℚ)
    let (temps, s) ← c.read_temps_go d rest s
    if temp_c < -40 ∨ temp_c > 125 then .ok (temps, s)
    else .ok (⟨tc.name, temp_c, tc.channel⟩ :: temps, s)

/-- `IteChip::read_temps` (sio/ite.rs lines 129–149). -/
def IteChip.read_temps {σ : Type} (c : IteChip) (d : Drv σ) (s : σ) :
    Except String (List TempReading × σ) :=
  c.read_temps_go d ITE_TEMP_CHANNELS s

-- ---------------------------------------------------------------------------
-- Fake channels: register-latch models of the hardware behind the driver
-- ---------------------------------------------------------------------------

/-- Latch state of the fake Nuvoton hardware-monitor block: the currently
selected bank and register index. -/
structure NuvLatch where
  bank : Nat
  index : Nat
  deriving Repr, DecidableEq

/-- Fake channel implementing the Nuvoton indexed-register protocol over a
register file `regs : bank → index → value`: writing `base+0x4E` latches the
bank, writing `base+0x05` latches the index, reading `base+0x06` yields the
selected register (masked to a byte, as the hardware returns one byte). -/
def nuvotonFakeDrv (base : Nat) (regs : Nat → Nat → Nat) : Drv NuvLatch where
  writeByte s p v := .ok (
    if p = base + 0x4E then { s with bank := v }
    else if p = base + 0x05 then { s with index := v }
    else s)
  readByte s p := .ok ((if p = base + 0x06 then regs s.bank s.index % 256 else 0), s)
  enableLpc s _ := (s, none)

/-- Latch state of the fake ITE environment controller: the selected index. -/
structure IteLatch where
  index : Nat
  deriving Repr, DecidableEq

/-- Fake channel implementing the ITE address/data-port protocol over a
register file `regs : index → value`. -/
def iteFakeDrv (base : Nat) (regs : Nat → Nat) : Drv IteLatch where
  writeByte s p v := .ok (if p = base + 0x05 then { s with index := v } else s)
  readByte s p := .ok ((if p = base + 0x06 then regs s.index % 256 else 0), s)
  enableLpc s _ := (s, none)

/-- On the fake Nuvoton channel, `read_register` returns the selected
register-file byte. -/
lemma nuvoton_fake_read_register (c : NuvotonChip) (regs : Nat → Nat → Nat)
    (s : NuvLatch) (bank reg : Nat) :
    c.read_register (nuvotonFakeDrv c.base_addr regs) s bank reg =
      .ok (regs bank reg % 256, ⟨bank, reg⟩) := by
  simp [NuvotonChip.read_register, nuvotonFakeDrv, Bind.bind, Except.bind]

/-- On the fake ITE channel, `read_register` returns the selected
register-file byte. -/
lemma ite_fake_read_register (c : IteChip) (regs : Nat → Nat)
    (s : IteLatch) (reg : Nat) :
    c.read_register (iteFakeDrv c.base_addr regs) s reg =
      .ok (regs reg % 256, ⟨reg⟩) := by
  simp [IteChip.read_register, iteFakeDrv, Bind.bind, Except.bind]

-- ---------------------------------------------------------------------------
-- Theorems: fan-RPM decode (C1) and temperature decode (C2)
-- ---------------------------------------------------------------------------

/-- C1: for every 16-bit tachometer count `c` read by a chip's `read_fans`
(Nuvoton or ITE), the reported rpm is `1_350_000 / c` (integer division)
when `c ∉ {0, 0xFFFF}` and `0` when `c ∈ {0, 0xFFFF}`, and the reading is
emitted in either case (one reading per channel, never an error).  Stated
against arbitrary register files on the fake latch channels. -/
theorem read_fans_rpm_decode (cN : NuvotonChip) (cI : IteChip)
    (regsN : Nat → Nat → Nat) (regsI : Nat → Nat) (sN : NuvLatch) (sI : IteLatch) :
    (∃ s', cN.read_fans (nuvotonFakeDrv cN.base_addr regsN) sN =
      .ok (NUVOTON_FAN_CHANNELS.map (fun fc =>
        let count := ((regsN 4 fc.count_high_reg % 256) <<< 8) |||
          (regsN 4 fc.count_low_reg % 256)
        ⟨fc.name, if count = 0 ∨ count = 0xFFFF then 0 else 1350000 / count,
          fc.channel⟩), s')) ∧
    (∃ s', cI.read_fans (iteFakeDrv cI.base_addr regsI) sI =
      .ok ((if cI.has_6_fans then ITE_FAN_CHANNELS ++ ITE_FAN_CHANNELS_EXT
            else ITE_FAN_CHANNELS).map (fun fc =>
        let count := if regsI 0x0C % 256 &&& 0x40 != 0 then
            ((regsI fc.count_high_reg % 256) <<< 8) ||| (regsI fc.count_low_reg % 256)
          else regsI fc.count_low_reg % 256
        ⟨fc.name, if count = 0 ∨ count = 0xFFFF then 0 else 1350000 / count,
          fc.channel⟩), s')) := by
  constructor
  · refine ⟨⟨4, 0xCD⟩, ?_⟩
    simp [NuvotonChip.read_fans, NuvotonChip.read_fans_go, NUVOTON_FAN_CHANNELS,
      nuvoton_fake_read_register, Bind.bind, Except.bind, Pure.pure, Except.pure]
  · rcases Bool.eq_false_or_eq_true (regsI 0x0C % 256 &&& 0x40 != 0) with h | h <;>
      rcases Bool.eq_false_or_eq_true cI.has_6_fans with h6 | h6
    · refine ⟨⟨0x85⟩, ?_⟩
      simp [IteChip.read_fans, IteChip.read_fans_go, ITE_FAN_CHANNELS,
        ITE_FAN_CHANNELS_EXT, ite_fake_read_register, h, h6, Bind.bind, Except.bind, Pure.pure, Except.pure]
    · refine ⟨⟨0x83⟩, ?_⟩
      simp [IteChip.read_fans, IteChip.read_fans_go, ITE_FAN_CHANNELS,
        ITE_FAN_CHANNELS_EXT, ite_fake_read_register, h, h6, Bind.bind, Except.bind, Pure.pure, Except.pure]
    · refine ⟨⟨0x84⟩, ?_⟩
      simp [IteChip.read_fans, IteChip.read_fans_go, ITE_FAN_CHANNELS,
        ITE_FAN_CHANNELS_EXT, ite_fake_read_register, h, h6, Bind.bind, Except.bind, Pure.pure, Except.pure]
    · refine ⟨⟨0x82⟩, ?_⟩
      simp [IteChip.read_fans, IteChip.read_fans_go, ITE_FAN_CHANNELS,
        ITE_FAN_CHANNELS_EXT, ite_fake_read_register, h, h6, Bind.bind, Except.bind, Pure.pure, Except.pure]

/-- Latch state after `read_temps_go` walks a Nuvoton temperature-channel list. -/
def nuvTempsLastLatch : List TempChannel → NuvLatch → NuvLatch
  | [], s => s
  | tc :: rest, _ => nuvTempsLastLatch rest ⟨tc.frac_bank, tc.frac_reg⟩

/-- Latch state after `read_temps_go` walks an ITE temperature-channel list. -/
def iteTempsLastLatch : List IteTempChannel → IteLatch → IteLatch
  | [], s => s
  | tc :: rest, _ => iteTempsLastLatch rest ⟨tc.reg⟩

/-- Characterization of `NuvotonChip::read_temps_go` on the fake latch channel:
each channel's reading is the signed byte plus the half-degree fraction bit,
filtered to `[-40, 125]`. -/
lemma nuvoton_fake_read_temps_go (c : NuvotonChip) (regs : Nat → Nat → Nat) :
    ∀ (l : List TempChannel) (s : NuvLatch),
    c.read_temps_go (nuvotonFakeDrv c.base_addr regs) l s =
      .ok (l.filterMap (fun tc =>
        let v : ℚ := (as_i8 (regs tc.bank tc.int_reg % 256) : ℚ) +
          (if regs tc.frac_bank tc.frac_reg % 256 &&& 0x80 ≠ 0 then 1/2 else 0)
        if v < -40 ∨ v > 125 then none else some ⟨tc.name, v, tc.channel⟩),
        nuvTempsLastLatch l s) := by
  intro l
  induction l with
  | nil => intro s; simp [NuvotonChip.read_temps_go, nuvTempsLastLatch]
  | cons tc rest ih =>
    intro s
    simp only [NuvotonChip.read_temps_go, nuvoton_fake_read_register, Bind.bind,
      Except.bind, ih, nuvTempsLastLatch, List.filterMap_cons]
    split_ifs with hv <;> simp

/-- Characterization of `IteChip::read_temps_go` on the fake latch channel. -/
lemma ite_fake_read_temps_go (c : IteChip) (regs : Nat → Nat) :
    ∀ (l : List IteTempChannel) (s : IteLatch),
    c.read_temps_go (iteFakeDrv c.base_addr regs) l s =
      .ok (l.filterMap (fun tc =>
        let v : ℚ := (as_i8 (regs tc.reg % 256) : ℚ)
        if v < -40 ∨ v > 125 then none else some ⟨tc.name, v, tc.channel⟩),
        iteTempsLastLatch l s) := by
  intro l
  induction l with
  | nil => intro s; simp [IteChip.read_temps_go, iteTempsLastLatch]
  | cons tc rest ih =>
    intro s
    simp only [IteChip.read_temps_go, ite_fake_read_register, Bind.bind,
      Except.bind, ih, iteTempsLastLatch, List.filterMap_cons]
    split_ifs with hv <;> simp

/-- C2: for every temperature channel read by `read_temps` (Nuvoton or ITE),
the reported `temp_c` is the signed 8-bit register value plus `0.5` exactly
when the Nuvoton fraction bit (bit 7 of the secondary register) is set —
ITE channels have no fraction bit — and any channel whose computed value
lies outside `[-40, 125]` is omitted from the output vector (not reported,
not an error).  Stated against arbitrary register files on the fake latch
channels. -/
theorem read_temps_decode (cN : NuvotonChip) (cI : IteChip)
    (regsN : Nat → Nat → Nat) (regsI : Nat → Nat) (sN : NuvLatch) (sI : IteLatch) :
    (∃ s', cN.read_temps (nuvotonFakeDrv cN.base_addr regsN) sN =
      .ok (NUVOTON_TEMP_CHANNELS.filterMap (fun tc =>
        let v : ℚ := (as_i8 (regsN tc.bank tc.int_reg % 256) : ℚ) +
          (if regsN tc.frac_bank tc.frac_reg % 256 &&& 0x80 ≠ 0 then 1/2 else 0)
        if v < -40 ∨ v > 125 then none else some ⟨tc.name, v, tc.channel⟩), s')) ∧
    (∃ s', cI.read_temps (iteFakeDrv cI.base_addr regsI) sI =
      .ok (ITE_TEMP_CHANNELS.filterMap (fun tc =>
        let v : ℚ := (as_i8 (regsI tc.reg % 256) : ℚ)
        if v < -40 ∨ v > 125 then none else some ⟨tc.name, v, tc.channel⟩), s')) :=
  ⟨⟨_, nuvoton_fake_read_temps_go cN regsN NUVOTON_TEMP_CHANNELS sN⟩,
   ⟨_, ite_fake_read_temps_go cI regsI ITE_TEMP_CHANNELS sI⟩⟩

-- ---------------------------------------------------------------------------
-- Chip detection (sio/detect.rs)
-- ---------------------------------------------------------------------------

/-- The result of detection: `Box<dyn Chip>` is a closed union of the two
chip families. -/
inductive DetectedChip where
  | nuvoton (c : NuvotonChip)
  | ite (c : IteChip)
  deriving Repr, DecidableEq

/-- The Nuvoton ID table of `try_nuvoton` (sio/detect.rs lines 52–65),
matched on `chip_id &&& 0xFFF0` (the low nibble is the silicon revision). -/
def nuvotonChipName (masked : Nat) : Option String :=
  match masked with
  | 0xD420 => some "NCT6796D"
  | 0xD450 => some "NCT6797D"
  | 0xD580 => some "NCT6798D"
  | 0xD800 => some "NCT6799D"
  | 0xC800 => some "NCT6791D"
  | 0xC910 => some "NCT6792D"
  | 0xC950 => some "NCT6795D"
  | _ => none

/-- The ITE ID table of `try_ite` (sio/detect.rs lines 128–140),
matched on the exact chip ID. -/
def iteChipName (chip_id : Nat) : Option String :=
  match chip_id with
  | 0x8688 => some "IT8688E"
  | 0x8689 => some "IT8689E"
  | 0x8695 => some "IT8695E"
  | 0x8686 => some "IT8686E"
  | 0x8628 => some "IT8628E"
  | _ => none

/-- `try_nuvoton` (sio/detect.rs lines 33–100): enter the extended-function
mode (two writes of `0x87`), read the chip-ID registers `0x20`/`0x21`, match
the masked ID table; on no match exit with `0xAA`; on a match select logical
device `0x0B`, read base-address registers `0x60`/`0x61`, exit with `0xAA`,
reject base `0`/`0xFFFF`, and attempt LPC decode enablement (error ignored). -/
def try_nuvoton {σ : Type} (d : Drv σ) (port : Nat) (s : σ) :
    Except String (Option DetectedChip × σ) := do
  let data_port := port + 1
  let s ← d.writeByte s port 0x87
  let s ← d.writeByte s port 0x87
  let s ← d.writeByte s port 0x20
  let (id_high, s) ← d.readByte s data_port
  let s ← d.writeByte s port 0x21
  let (id_low, s) ← d.readByte s data_port
  let chip_id := (id_high <<< 8) ||| id_low
  match nuvotonChipName (chip_id &&& 0xFFF0) with
  | none => do
    let s ← d.writeByte s port 0xAA
    .ok (none, s)
  | some chip_name => do
    let s ← d.writeByte s port 0x07
    let s ← d.writeByte s data_port 0x0B
    let s ← d.writeByte s port 0x60
    let (base_high, s) ← d.readByte s data_port
    let s ← d.writeByte s port 0x61
    let (base_low, s) ← d.readByte s data_port
    let base_addr := (base_high <<< 8) ||| base_low
    let s ← d.writeByte s port 0xAA
    if base_addr = 0 ∨ base_addr = 0xFFFF then .ok (none, s)
    else
      let (s, _warn) := d.enableLpc s base_addr
      .ok (some (.nuvoton ⟨chip_name, chip_id, base_addr⟩), s)

/-- `try_ite` (sio/detect.rs lines 103–169): write the port-dependent 4-byte
key sequence, read the chip-ID registers, match the exact ID table; on no
match write the exit bytes; on a match select logical device `0x04`, read
the base address, write the exit bytes, and reject base `0`/`0xFFFF`. -/
def try_ite {σ : Type} (d : Drv σ) (port : Nat) (s : σ) :
    Except String (Option DetectedChip × σ) := do
  let data_port := port + 1
  let key_sequence : List Nat :=
    if port = 0x2E then [0x87, 0x01, 0x55, 0x55] else [0x87, 0x01, 0x55, 0xAA]
  let s ← key_sequence.foldlM (fun s byte => d.writeByte s port byte) s
  let s ← d.writeByte s port 0x20
  let (id_high, s) ← d.readByte s data_port
  let s ← d.writeByte s port 0x21
  let (id_low, s) ← d.readByte s data_port
  let chip_id := (id_high <<< 8) ||| id_low
  match iteChipName chip_id with
  | none => do
    let s ← d.writeByte s port 0x02
    let s ← d.writeByte s data_port 0x02
    .ok (none, s)
  | some chip_name => do
    let s ← d.writeByte s port 0x07
    let s ← d.writeByte s data_port 0x04
    let s ← d.writeByte s port 0x60
    let (base_high, s) ← d.readByte s data_port
    let s ← d.writeByte s port 0x61
    let (base_low, s) ← d.readByte s data_port
    let base_addr := (base_high <<< 8) ||| base_low
    let s ← d.writeByte s port 0x02
    let s ← d.writeByte s data_port 0x02
    if base_addr = 0 ∨ base_addr = 0xFFFF then .ok (none, s)
    else .ok (some (.ite ⟨chip_name, chip_id, base_addr⟩), s)

/-- Loop of `detect_chip` over the two standard configuration ports:
for each port, Nuvoton is tried before ITE, and the first match returns. -/
def detect_chip_go {σ : Type} (d : Drv σ) :
    List Nat → σ → Except String (DetectedChip × σ)
  | [], _ => .error "未检测到已支持的 Super I/O 芯片（Nuvoton NCT67xx / ITE IT86xx）"
  | config_port :: rest, s => do
    let (r, s) ← try_nuvoton d config_port s
    match r with
    | some chip => .ok (chip, s)
    | none => do
      let (r, s) ← try_ite d config_port s
      match r with
      | some chip => .ok (chip, s)
      | none => detect_chip_go d rest s

/-- `detect_chip` (sio/detect.rs lines 11–30): probe ports `0x2E` then `0x4E`. -/
def detect_chip {σ : Type} (d : Drv σ) (s : σ) :
    Except String (DetectedChip × σ) :=
  detect_chip_go d [0x2E, 0x4E] s

-- ---------------------------------------------------------------------------
-- Stream fake channel: reads come from a stream, writes are logged
-- ---------------------------------------------------------------------------

/-- One port operation, as recorded by the stream fake channel. -/
inductive PortOp where
  | wr (port val : Nat)
  | rd (port val : Nat)
  deriving Repr, DecidableEq

/-- State of the stream fake channel: how many reads happened so far,
and the log of all port operations in order. -/
structure StreamState where
  pos : Nat
  log : List PortOp
  deriving Repr, DecidableEq

/-- Fake channel whose `n`-th byte read returns `f n % 256` and whose
operations are all recorded in the log.  `enableLpc` is a no-op here:
on this channel it performs no port-byte traffic (the real one only
touches the PCI configuration dword ports). -/
def streamDrv (f : Nat → Nat) : Drv StreamState where
  writeByte s p v := .ok ⟨s.pos, s.log ++ [.wr p v]⟩
  readByte s p := .ok (f s.pos % 256, ⟨s.pos + 1, s.log ++ [.rd p (f s.pos % 256)]⟩)
  enableLpc s _ := (s, none)

/-- The spec's detection scenario: a channel reporting Nuvoton ID `0xD420`
and base-address bytes `0x02`/`0x90`. -/
def nuvotonScenarioStream : Nat → Nat :=
  fun n => [0xD4, 0x20, 0x02, 0x90].getD n 0

/-- A channel where nothing matches until the very last probe (ITE at port
`0x4E` reports `IT8688E` at base `0x0290`), exercising the full probe order. -/
def detectOrderStream : Nat → Nat :=
  fun n => [0, 0, 0, 0, 0, 0, 0x86, 0x88, 0x02, 0x90].getD n 0

/-- C4: for every chip ID whose `0xFFF0`-masked value is in the known Nuvoton
table, detection selects exactly the model named by that table entry (for any
read stream delivering that ID and a valid base address); the table maps
`0xD420 ↦ NCT6796D`, `0xD450 ↦ NCT6797D`, `0xD580 ↦ NCT6798D`,
`0xD800 ↦ NCT6799D`, `0xC800 ↦ NCT6791D`, `0xC910 ↦ NCT6792D`,
`0xC950 ↦ NCT6795D`; and a channel reporting ID `0xD420` with base bytes
`0x02`/`0x90` makes `detect_chip` return the chip named "NCT6796D" with
I/O base `0x0290`. -/
theorem nuvoton_detection (f : Nat → Nat) (name : String)
    (hname : nuvotonChipName ((((f 0 % 256) <<< 8) ||| (f 1 % 256)) &&& 0xFFF0) = some name)
    (hb0 : (((f 2 % 256) <<< 8) ||| (f 3 % 256)) ≠ 0)
    (hbF : (((f 2 % 256) <<< 8) ||| (f 3 % 256)) ≠ 0xFFFF) :
    (try_nuvoton (streamDrv f) 0x2E ⟨0, []⟩ =
      .ok (some (.nuvoton ⟨name, ((f 0 % 256) <<< 8) ||| (f 1 % 256),
          ((f 2 % 256) <<< 8) ||| (f 3 % 256)⟩),
        ⟨4, [.wr 0x2E 0x87, .wr 0x2E 0x87, .wr 0x2E 0x20, .rd 0x2F (f 0 % 256),
             .wr 0x2E 0x21, .rd 0x2F (f 1 % 256), .wr 0x2E 0x07, .wr 0x2F 0x0B,
             .wr 0x2E 0x60, .rd 0x2F (f 2 % 256), .wr 0x2E 0x61, .rd 0x2F (f 3 % 256),
             .wr 0x2E 0xAA]⟩)) ∧
    (detect_chip (streamDrv f) ⟨0, []⟩ =
      .ok (.nuvoton ⟨name, ((f 0 % 256) <<< 8) ||| (f 1 % 256),
          ((f 2 % 256) <<< 8) ||| (f 3 % 256)⟩,
        ⟨4, [.wr 0x2E 0x87, .wr 0x2E 0x87, .wr 0x2E 0x20, .rd 0x2F (f 0 % 256),
             .wr 0x2E 0x21, .rd 0x2F (f 1 % 256), .wr 0x2E 0x07, .wr 0x2F 0x0B,
             .wr 0x2E 0x60, .rd 0x2F (f 2 % 256), .wr 0x2E 0x61, .rd 0x2F (f 3 % 256),
             .wr 0x2E 0xAA]⟩)) ∧
    (nuvotonChipName 0xD420 = some "NCT6796D" ∧ nuvotonChipName 0xD450 = some "NCT6797D" ∧
     nuvotonChipName 0xD580 = some "NCT6798D" ∧ nuvotonChipName 0xD800 = some "NCT6799D" ∧
     nuvotonChipName 0xC800 = some "NCT6791D" ∧ nuvotonChipName 0xC910 = some "NCT6792D" ∧
     nuvotonChipName 0xC950 = some "NCT6795D") ∧
    (detect_chip (streamDrv nuvotonScenarioStream) ⟨0, []⟩ =
      .ok (.nuvoton ⟨"NCT6796D", 0xD420, 0x0290⟩,
        ⟨4, [.wr 0x2E 0x87, .wr 0x2E 0x87, .wr 0x2E 0x20, .rd 0x2F 0xD4,
             .wr 0x2E 0x21, .rd 0x2F 0x20, .wr 0x2E 0x07, .wr 0x2F 0x0B,
             .wr 0x2E 0x60, .rd 0x2F 0x02, .wr 0x2E 0x61, .rd 0x2F 0x90,
             .wr 0x2E 0xAA]⟩)) := by
  have h1 : try_nuvoton (streamDrv f) 0x2E ⟨0, []⟩ =
      .ok (some (.nuvoton ⟨name, ((f 0 % 256) <<< 8) ||| (f 1 % 256),
          ((f 2 % 256) <<< 8) ||| (f 3 % 256)⟩),
        ⟨4, [.wr 0x2E 0x87, .wr 0x2E 0x87, .wr 0x2E 0x20, .rd 0x2F (f 0 % 256),
             .wr 0x2E 0x21, .rd 0x2F (f 1 % 256), .wr 0x2E 0x07, .wr 0x2F 0x0B,
             .wr 0x2E 0x60, .rd 0x2F (f 2 % 256), .wr 0x2E 0x61, .rd 0x2F (f 3 % 256),
             .wr 0x2E 0xAA]⟩) := by
    simp [try_nuvoton, streamDrv, hname, hb0, hbF, Bind.bind, Except.bind,
      Pure.pure, Except.pure]
  refine ⟨h1, ?_, ⟨rfl, rfl, rfl, rfl, rfl, rfl, rfl⟩, by rfl⟩
  simp [detect_chip, detect_chip_go, h1, Bind.bind, Except.bind]

/-- C4 witness: the general part of `nuvoton_detection` applied to the
concrete scenario stream. -/
theorem nuvoton_detection_witness :
    try_nuvoton (streamDrv nuvotonScenarioStream) 0x2E ⟨0, []⟩ =
      .ok (some (.nuvoton ⟨"NCT6796D",
          ((nuvotonScenarioStream 0 % 256) <<< 8) ||| (nuvotonScenarioStream 1 % 256),
          ((nuvotonScenarioStream 2 % 256) <<< 8) ||| (nuvotonScenarioStream 3 % 256)⟩),
        ⟨4, [.wr 0x2E 0x87, .wr 0x2E 0x87, .wr 0x2E 0x20,
             .rd 0x2F (nuvotonScenarioStream 0 % 256),
             .wr 0x2E 0x21, .rd 0x2F (nuvotonScenarioStream 1 % 256),
             .wr 0x2E 0x07, .wr 0x2F 0x0B, .wr 0x2E 0x60,
             .rd 0x2F (nuvotonScenarioStream 2 % 256),
             .wr 0x2E 0x61, .rd 0x2F (nuvotonScenarioStream 3 % 256),
             .wr 0x2E 0xAA]⟩) :=
  (nuvoton_detection nuvotonScenarioStream "NCT6796D"
    (by decide) (by decide) (by decide)).1

/-- C8: `detect_chip` probes port `0x2E` before `0x4E`, on each port tries
Nuvoton before ITE, returns the first match, and when nothing matches on
either port returns the terminal not-found error (no retry); the final
conjunct runs the whole probe sequence on a fake channel that only matches
at the very last step and exhibits the complete port-operation log in order:
Nuvoton entry at `0x2E`, ITE key at `0x2E`, Nuvoton entry at `0x4E`,
ITE key at `0x4E` (the match). -/
theorem detect_chip_probe_order :
    (∀ (σ : Type) (d : Drv σ) (s s' : σ) (chip : DetectedChip),
      try_nuvoton d 0x2E s = .ok (some chip, s') →
      detect_chip d s = .ok (chip, s')) ∧
    (∀ (σ : Type) (d : Drv σ) (s s1 s' : σ) (chip : DetectedChip),
      try_nuvoton d 0x2E s = .ok (none, s1) →
      try_ite d 0x2E s1 = .ok (some chip, s') →
      detect_chip d s = .ok (chip, s')) ∧
    (∀ (σ : Type) (d : Drv σ) (s s1 s2 s' : σ) (chip : DetectedChip),
      try_nuvoton d 0x2E s = .ok (none, s1) →
      try_ite d 0x2E s1 = .ok (none, s2) →
      try_nuvoton d 0x4E s2 = .ok (some chip, s') →
      detect_chip d s = .ok (chip, s')) ∧
    (∀ (σ : Type) (d : Drv σ) (s s1 s2 s3 s4 : σ),
      try_nuvoton d 0x2E s = .ok (none, s1) →
      try_ite d 0x2E s1 = .ok (none, s2) →
      try_nuvoton d 0x4E s2 = .ok (none, s3) →
      try_ite d 0x4E s3 = .ok (none, s4) →
      detect_chip d s =
        .error "未检测到已支持的 Super I/O 芯片（Nuvoton NCT67xx / ITE IT86xx）") ∧
    (detect_chip (streamDrv detectOrderStream) ⟨0, []⟩ =
      .ok (.ite ⟨"IT8688E", 0x8688, 0x0290⟩,
        ⟨10, [.wr 0x2E 0x87, .wr 0x2E 0x87, .wr 0x2E 0x20, .rd 0x2F 0x00,
              .wr 0x2E 0x21, .rd 0x2F 0x00, .wr 0x2E 0xAA,
              .wr 0x2E 0x87, .wr 0x2E 0x01, .wr 0x2E 0x55, .wr 0x2E 0x55,
              .wr 0x2E 0x20, .rd 0x2F 0x00, .wr 0x2E 0x21, .rd 0x2F 0x00,
              .wr 0x2E 0x02, .wr 0x2F 0x02,
              .wr 0x4E 0x87, .wr 0x4E 0x87, .wr 0x4E 0x20, .rd 0x4F 0x00,
              .wr 0x4E 0x21, .rd 0x4F 0x00, .wr 0x4E 0xAA,
              .wr 0x4E 0x87, .wr 0x4E 0x01, .wr 0x4E 0x55, .wr 0x4E 0xAA,
              .wr 0x4E 0x20, .rd 0x4F 0x86, .wr 0x4E 0x21, .rd 0x4F 0x88,
              .wr 0x4E 0x07, .wr 0x4F 0x04, .wr 0x4E 0x60, .rd 0x4F 0x02,
              .wr 0x4E 0x61, .rd 0x4F 0x90, .wr 0x4E 0x02, .wr 0x4F 0x02]⟩)) := by
  refine ⟨?_, ?_, ?_, ?_, by rfl⟩
  · intro σ d s s' chip h
    simp [detect_chip, detect_chip_go, h, Bind.bind, Except.bind]
  · intro σ d s s1 s' chip h1 h2
    simp [detect_chip, detect_chip_go, h1, h2, Bind.bind, Except.bind]
  · intro σ d s s1 s2 s' chip h1 h2 h3
    simp [detect_chip, detect_chip_go, h1, h2, h3, Bind.bind, Except.bind]
  · intro σ d s s1 s2 s3 s4 h1 h2 h3 h4
    simp [detect_chip, detect_chip_go, h1, h2, h3, h4, Bind.bind, Except.bind]

/-- C8 witness: the first-match rule applied to the concrete scenario stream
(Nuvoton matches immediately at port `0x2E`). -/
theorem detect_chip_probe_order_witness :
    detect_chip (streamDrv nuvotonScenarioStream) ⟨0, []⟩ =
      .ok (.nuvoton ⟨"NCT6796D", 0xD420, 0x0290⟩,
        ⟨4, [.wr 0x2E 0x87, .wr 0x2E 0x87, .wr 0x2E 0x20, .rd 0x2F 0xD4,
             .wr 0x2E 0x21, .rd 0x2F 0x20, .wr 0x2E 0x07, .wr 0x2F 0x0B,
             .wr 0x2E 0x60, .rd 0x2F 0x02, .wr 0x2E 0x61, .rd 0x2F 0x90,
             .wr 0x2E 0xAA]⟩) :=
  detect_chip_probe_order.1 StreamState (streamDrv nuvotonScenarioStream)
    ⟨0, []⟩ _ _ (by rfl)

-- ---------------------------------------------------------------------------
-- WMI connection (wmi/connection.rs)
-- ---------------------------------------------------------------------------

/-- `AsusWmiBackend` (wmi/connection.rs). -/
inductive AsusWmiBackend where
  | Laptop (instance_path : String)
  | Desktop (instance_path : String)
  | AsusHW (instance_path : String)
  deriving Repr, DecidableEq

/-- A WMI property value.  The COM layer returns `VARIANT`s of heterogeneous
numeric widths, all coerced by `get_property_u32` to one canonical 32-bit
value; we model properties as already carrying the canonical number or a
string. -/
inductive WmiValue where
  | num (n : Nat)
  | str (s : String)
  deriving Repr, DecidableEq

/-- A WMI output-parameter object: named properties. -/
def WmiObject : Type := List (String × WmiValue)

/-- `WmiConnection` (wmi/connection.rs): the detected backend plus the
method-execution path (`exec_method` / `exec_method_v2` through
`IWbemServices::ExecMethod`), abstracted as an oracle from
(object path, method name, parameters) to the output object. -/
structure WmiConnection where
  backend : AsusWmiBackend
  exec : String → String → List (String × WmiValue) → Except String WmiObject

/-- `WmiConnection::get_property_u32`: numeric extraction; a string or a
missing property is an error. -/
def WmiConnection.get_property_u32 (obj : WmiObject) (name : String) :
    Except String Nat :=
  match obj.lookup name with
  | some (.num n) => .ok n
  | some (.str _) => .error ("属性 " ++ name ++ " 无法转换为数值类型")
  | none => .error ("property not found: " ++ name)

/-- `WmiConnection::get_property_string`. -/
def WmiConnection.get_property_string (obj : WmiObject) (name : String) :
    Except String String :=
  match obj.lookup name with
  | some (.str s) => .ok s
  | some (.num _) => .error ("Property " ++ name ++ " is not a string value")
  | none => .error ("property not found: " ++ name)

/-- `WmiConnection::dsts` (wmi/connection.rs lines 361–376). -/
def WmiConnection.dsts (conn : WmiConnection) (device_id : Nat) :
    Except String Nat :=
  match conn.backend with
  | .Laptop instance_path => do
    let out ← conn.exec instance_path "DSTS" [("Device_ID", .num device_id)]
    WmiConnection.get_property_u32 out "Device_Status"
  | .Desktop instance_path => do
    let out ← conn.exec instance_path "device_status" [("device_id", .num device_id)]
    WmiConnection.get_property_u32 out "ctrl_param"
  | .AsusHW _ => .error "ASUSHW 后端不支持 device_status 操作"

/-- `WmiConnection::devs` (wmi/connection.rs lines 383–406). -/
def WmiConnection.devs (conn : WmiConnection) (device_id control : Nat) :
    Except String Nat :=
  match conn.backend with
  | .Laptop instance_path => do
    let out ← conn.exec instance_path "DEVS"
      [("Device_ID", .num device_id), ("Control_Status", .num control)]
    WmiConnection.get_property_u32 out "Device_Status"
  | .Desktop instance_path => do
    let _out ← conn.exec instance_path "device_ctrl"
      [("device_id", .num device_id), ("ctrl_param", .num control)]
    .ok 1
  | .AsusHW _ => .error "ASUSHW 后端不支持 device_ctrl 操作"

-- ---------------------------------------------------------------------------
-- ASUS management layer (wmi/asus_mgmt.rs)
-- ---------------------------------------------------------------------------

/-- Device IDs (wmi/asus_mgmt.rs `mod device_id`). -/
def CPU_FAN_SPEED : Nat := 0x00110013

/-- GPU / chassis-fan-1 tachometer device ID. -/
def GPU_FAN_SPEED : Nat := 0x00110014

/-- Middle / chassis-fan-2 tachometer device ID. -/
def MID_FAN_SPEED : Nat := 0x00110031

/-- Throttle-thermal-policy device ID. -/
def THROTTLE_THERMAL_POLICY : Nat := 0x00120075

/-- `FanTarget` (wmi/asus_mgmt.rs). -/
inductive FanTarget where
  | Cpu
  | Gpu
  | Mid
  deriving Repr, DecidableEq

/-- `FanTarget::ALL`. -/
def FanTarget.ALL : List FanTarget := [.Cpu, .Gpu, .Mid]

/-- `FanTarget::speed_device_id`. -/
def FanTarget.speed_device_id : FanTarget → Nat
  | .Cpu => CPU_FAN_SPEED
  | .Gpu => GPU_FAN_SPEED
  | .Mid => MID_FAN_SPEED

/-- `ThermalProfile` (wmi/asus_mgmt.rs). -/
inductive ThermalProfile where
  | Standard
  | Performance
  | Silent
  deriving Repr, DecidableEq

/-- `ThermalProfile::to_raw`. -/
def ThermalProfile.to_raw : ThermalProfile → Nat
  | .Standard => 0
  | .Performance => 1
  | .Silent => 2

/-- `ThermalProfile::from_raw` (wmi/asus_mgmt.rs lines 160–167): matches on
`value & 0xFF`. -/
def ThermalProfile.from_raw (value : Nat) : Option ThermalProfile :=
  match value &&& 0xFF with
  | 0 => some .Standard
  | 1 => some .Performance
  | 2 => some .Silent
  | _ => none

/-- `get_thermal_profile` (wmi/asus_mgmt.rs lines 210–214). -/
def get_thermal_profile (conn : WmiConnection) : Except String ThermalProfile := do
  let raw ← conn.dsts THROTTLE_THERMAL_POLICY
  match ThermalProfile.from_raw raw with
  | some p => .ok p
  | none => .error ("Unknown thermal-profile raw value: " ++ toString raw)

/-- `get_fan_speed` (wmi/asus_mgmt.rs lines 177–181): lower 16 bits hold the
RPM; upper bits may carry status flags. -/
def get_fan_speed (conn : WmiConnection) (target : FanTarget) :
    Except String Nat := do
  let raw ← conn.dsts target.speed_device_id
  .ok (raw &&& 0xFFFF)

/-- `FanInfo` (wmi/asus_mgmt.rs). -/
structure FanInfo where
  target : FanTarget
  rpm : Nat
  deriving Repr, DecidableEq

/-- `get_all_fan_speeds` (wmi/asus_mgmt.rs lines 194–203): headers that fail
to respond are silently skipped. -/
def get_all_fan_speeds (conn : WmiConnection) : List FanInfo :=
  FanTarget.ALL.filterMap (fun target =>
    (get_fan_speed conn target).toOption.map (fun rpm => ⟨target, rpm⟩))

/-- `DESKTOP_MAX_FAN_HEADERS` (wmi/asus_mgmt.rs line 310). -/
def DESKTOP_MAX_FAN_HEADERS : Nat := 8

/-- Rust's `str::to_uppercase` (as used by the `from_wmi` parsers); Lean's
own `String.toUpper` is equivalent but does not reduce in the kernel. -/
def to_uppercase (s : String) : String := ⟨s.data.map Char.toUpper⟩

/-- `DesktopFanMode` (wmi/asus_mgmt.rs). -/
inductive DesktopFanMode where
  | Pwm
  | Auto
  deriving Repr, DecidableEq

/-- `DesktopFanMode::from_wmi`: uppercased match, default `Auto`. -/
def DesktopFanMode.from_wmi (s : String) : DesktopFanMode :=
  match to_uppercase s with
  | "PWM" => .Pwm
  | _ => .Auto

/-- `DesktopFanProfile` (wmi/asus_mgmt.rs). -/
inductive DesktopFanProfile where
  | Manual
  | Standard
  deriving Repr, DecidableEq

/-- `DesktopFanProfile::from_wmi`: uppercased match, default `Standard`. -/
def DesktopFanProfile.from_wmi (s : String) : DesktopFanProfile :=
  match to_uppercase s with
  | "MANUAL" => .Manual
  | _ => .Standard

/-- `DesktopFanPolicy` (wmi/asus_mgmt.rs). -/
structure DesktopFanPolicy where
  fan_type : Nat
  mode : DesktopFanMode
  profile : DesktopFanProfile
  source : String
  low_limit : Nat
  deriving Repr, DecidableEq

/-- `get_desktop_fan_policy` (wmi/asus_mgmt.rs lines 411–447): desktop-only;
`ErrorCode != 0` means the header is absent (`None`), otherwise the Mode /
Profile / Source / LowLimit properties are decoded. -/
def get_desktop_fan_policy (conn : WmiConnection) (fan_type : Nat) :
    Except String (Option DesktopFanPolicy) :=
  match conn.backend with
  | .Desktop instance_path => do
    let out ← conn.exec instance_path "GetFanPolicy" [("FanType", .num fan_type)]
    let error_code ← WmiConnection.get_property_u32 out "ErrorCode"
    if error_code ≠ 0 then .ok none
    else do
      let mode ← WmiConnection.get_property_string out "Mode"
      let profile ← WmiConnection.get_property_string out "Profile"
      let source ← WmiConnection.get_property_string out "Source"
      let low_limit ← WmiConnection.get_property_u32 out "LowLimit"
      .ok (some ⟨fan_type, DesktopFanMode.from_wmi mode,
        DesktopFanProfile.from_wmi profile, source, low_limit⟩)
  | _ => .error "GetFanPolicy is only available on desktop backends"

/-- `get_all_desktop_fan_policies` (wmi/asus_mgmt.rs lines 453–457): probes
headers `0..8`, keeping only headers that respond without error. -/
def get_all_desktop_fan_policies (conn : WmiConnection) : List DesktopFanPolicy :=
  (List.range DESKTOP_MAX_FAN_HEADERS).filterMap (fun ft =>
    (get_desktop_fan_policy conn ft).toOption.join)

-- ---------------------------------------------------------------------------
-- Theorems: WMI layer
-- ---------------------------------------------------------------------------

/-- C6: for every device ID (and control value), `dsts` and `devs` on a
connection whose backend is AsusHW return the "unsupported operation" error —
as total functions they never panic — and the result is independent of the
method-execution oracle, i.e. no method call is ever performed. -/
theorem asushw_dsts_devs_unsupported (path : String)
    (e1 e2 : String → String → List (String × WmiValue) → Except String WmiObject)
    (device_id control : Nat) :
    WmiConnection.dsts ⟨.AsusHW path, e1⟩ device_id =
      .error "ASUSHW 后端不支持 device_status 操作" ∧
    WmiConnection.devs ⟨.AsusHW path, e1⟩ device_id control =
      .error "ASUSHW 后端不支持 device_ctrl 操作" ∧
    WmiConnection.dsts ⟨.AsusHW path, e1⟩ device_id =
      WmiConnection.dsts ⟨.AsusHW path, e2⟩ device_id ∧
    WmiConnection.devs ⟨.AsusHW path, e1⟩ device_id control =
      WmiConnection.devs ⟨.AsusHW path, e2⟩ device_id control :=
  ⟨rfl, rfl, rfl, rfl⟩

/-- C9: when the underlying `dsts` call returns raw status `raw`,
`get_fan_speed` returns exactly `raw &&& 0xFFFF` (the low 16 bits), which is
always at most `0xFFFF`. -/
theorem get_fan_speed_low16 (conn : WmiConnection) (t : FanTarget) (raw : Nat)
    (h : conn.dsts t.speed_device_id = .ok raw) :
    get_fan_speed conn t = .ok (raw &&& 0xFFFF) ∧ raw &&& 0xFFFF ≤ 0xFFFF := by
  refine ⟨?_, Nat.and_le_right⟩
  simp [get_fan_speed, h, Bind.bind, Except.bind]

/-- A concrete laptop connection whose status reads return `0x12345`. -/
def laptopFanConn : WmiConnection :=
  ⟨.Laptop "ASUSATKWMI_WMNB", fun _ _ _ => .ok [("Device_Status", .num 0x12345)]⟩

/-- C9 witness at a concrete connection: `0x12345 &&& 0xFFFF = 0x2345`. -/
theorem get_fan_speed_low16_witness :
    get_fan_speed laptopFanConn .Cpu = .ok (0x12345 &&& 0xFFFF) ∧
      0x12345 &&& 0xFFFF ≤ 0xFFFF :=
  get_fan_speed_low16 laptopFanConn .Cpu 0x12345 (by rfl)

/-- C7: the result of `get_all_fan_speeds` contains an entry for a fan target
iff `get_fan_speed` (the `dsts` call) for that target succeeded — failed
targets are silently skipped, the call itself never fails — and the result
holds at most 3 entries. -/
theorem get_all_fan_speeds_spec (conn : WmiConnection) :
    (∀ t : FanTarget, (∃ fi ∈ get_all_fan_speeds conn, fi.target = t) ↔
      ∃ rpm, get_fan_speed conn t = .ok rpm) ∧
    (get_all_fan_speeds conn).length ≤ 3 := by
  rcases hc : get_fan_speed conn .Cpu with ec | rc <;>
    rcases hg : get_fan_speed conn .Gpu with eg | rg <;>
      rcases hm : get_fan_speed conn .Mid with em | rm <;>
  · refine ⟨fun t => ?_, ?_⟩
    · cases t <;>
        simp [get_all_fan_speeds, FanTarget.ALL, hc, hg, hm, Except.toOption]
    · simp [get_all_fan_speeds, FanTarget.ALL, hc, hg, hm, Except.toOption]

/-- A concrete laptop connection whose status reads return `0x100` = 256. -/
def thermalCexConn : WmiConnection :=
  ⟨.Laptop "ASUSATKWMI_WMNB", fun _ _ _ => .ok [("Device_Status", .num 0x100)]⟩

/-- C3 counterexample: the status read returns `0x100`, which is neither 0,
1 nor 2, yet `get_thermal_profile` returns the `Standard` profile rather
than a decode error — `from_raw` matches on `value & 0xFF`. -/
theorem thermal_profile_mask_counterexample :
    thermalCexConn.dsts THROTTLE_THERMAL_POLICY = .ok 0x100 ∧
    (0x100 : Nat) ≠ 0 ∧ (0x100 : Nat) ≠ 1 ∧ (0x100 : Nat) ≠ 2 ∧
    get_thermal_profile thermalCexConn = .ok .Standard ∧
    ThermalProfile.from_raw 0x100 = some .Standard :=
  ⟨rfl, by decide, by decide, by decide, rfl, rfl⟩

/-- `from_raw` yields `none` exactly when the low byte exceeds 2. -/
lemma thermal_from_raw_eq_none (value : Nat) (h : 2 < value &&& 0xFF) :
    ThermalProfile.from_raw value = none := by
  unfold ThermalProfile.from_raw
  generalize hm : value &&& 0xFF = m at h ⊢
  rcases m with _ | _ | _ | m
  · omega
  · omega
  · omega
  · rfl

/-- C3 (amended): `get_thermal_profile` decodes the low byte of the raw
status value — `raw & 0xFF = 0 ↦ Standard`, `1 ↦ Performance`, `2 ↦ Silent` —
and any raw value whose low byte exceeds 2 yields a decode error rather
than a profile variant. -/
theorem get_thermal_profile_decode (conn : WmiConnection) (raw : Nat)
    (h : conn.dsts THROTTLE_THERMAL_POLICY = .ok raw) :
    (raw &&& 0xFF = 0 → get_thermal_profile conn = .ok .Standard) ∧
    (raw &&& 0xFF = 1 → get_thermal_profile conn = .ok .Performance) ∧
    (raw &&& 0xFF = 2 → get_thermal_profile conn = .ok .Silent) ∧
    (2 < raw &&& 0xFF → get_thermal_profile conn =
      .error ("Unknown thermal-profile raw value: " ++ toString raw)) := by
  have hu : ∀ o : Option ThermalProfile, ThermalProfile.from_raw raw = o →
      get_thermal_profile conn = (match o with
        | some p => .ok p
        | none => .error ("Unknown thermal-profile raw value: " ++ toString raw)) := by
    intro o ho
    simp [get_thermal_profile, h, ho, Bind.bind, Except.bind]
  refine ⟨fun h0 => ?_, fun h1 => ?_, fun h2 => ?_, fun h3 => ?_⟩
  · exact hu (some .Standard) (by unfold ThermalProfile.from_raw; rw [h0])
  · exact hu (some .Performance) (by unfold ThermalProfile.from_raw; rw [h1])
  · exact hu (some .Silent) (by unfold ThermalProfile.from_raw; rw [h2])
  · exact hu none (thermal_from_raw_eq_none raw h3)

/-- C3 witness: the amended decode rule applied at the counterexample
connection (low byte of `0x100` is 0 → `Standard`). -/
theorem get_thermal_profile_decode_witness :
    get_thermal_profile thermalCexConn = .ok .Standard :=
  (get_thermal_profile_decode thermalCexConn 0x100 (by rfl)).1 (by decide)

/-- C5: a `GetFanPolicy` reply with `ErrorCode` 0 decodes into a
`DesktopFanPolicy` whose mode and profile are parsed from the closed string
enumerations (in particular Mode="PWM", Profile="STANDARD", LowLimit=600
yields mode `Pwm`, profile `Standard`, low_limit 600, for any Source);
a reply with nonzero `ErrorCode` yields `none` (header absent), and
`get_all_desktop_fan_policies` contains exactly the headers whose policy
call returned `some`; unrecognized mode/profile strings coerce to the
default variants `Auto` / `Standard`. -/
theorem desktop_fan_policy_spec :
    (∀ (path src : String)
      (e : String → String → List (String × WmiValue) → Except String WmiObject)
      (ft low : Nat),
      e path "GetFanPolicy" [("FanType", .num ft)] =
        .ok [("ErrorCode", .num 0), ("Mode", .str "PWM"), ("Profile", .str "STANDARD"),
             ("Source", .str src), ("LowLimit", .num low)] →
      get_desktop_fan_policy ⟨.Desktop path, e⟩ ft =
        .ok (some ⟨ft, .Pwm, .Standard, src, low⟩)) ∧
    (∀ (conn : WmiConnection) (path : String) (ft : Nat) (out : WmiObject) (ec : Nat),
      conn.backend = .Desktop path →
      conn.exec path "GetFanPolicy" [("FanType", .num ft)] = .ok out →
      WmiConnection.get_property_u32 out "ErrorCode" = .ok ec → ec ≠ 0 →
      get_desktop_fan_policy conn ft = .ok none) ∧
    (∀ (conn : WmiConnection) (p : DesktopFanPolicy),
      p ∈ get_all_desktop_fan_policies conn ↔
      ∃ ft ∈ List.range DESKTOP_MAX_FAN_HEADERS,
        get_desktop_fan_policy conn ft = .ok (some p)) ∧
    (∀ s : String, (to_uppercase s = "PWM" → DesktopFanMode.from_wmi s = .Pwm) ∧
      (to_uppercase s ≠ "PWM" → DesktopFanMode.from_wmi s = .Auto)) ∧
    (∀ s : String, (to_uppercase s = "MANUAL" → DesktopFanProfile.from_wmi s = .Manual) ∧
      (to_uppercase s ≠ "MANUAL" → DesktopFanProfile.from_wmi s = .Standard)) := by
  refine ⟨?_, ?_, ?_, ?_, ?_⟩
  · intro path src e ft low he
    simp [get_desktop_fan_policy, he, WmiConnection.get_property_u32,
      WmiConnection.get_property_string, List.lookup, DesktopFanMode.from_wmi,
      DesktopFanProfile.from_wmi, Bind.bind, Except.bind]
    constructor <;> decide
  · intro conn path ft out ec hb he hec hne
    simp [get_desktop_fan_policy, hb, he, hec, hne, Bind.bind, Except.bind]
  · intro conn p
    have key : ∀ ft : Nat, (get_desktop_fan_policy conn ft).toOption.join = some p ↔
        get_desktop_fan_policy conn ft = .ok (some p) := by
      intro ft
      rcases hf : get_desktop_fan_policy conn ft with err | o
      · simp [Except.toOption]
      · rcases o with _ | q <;> simp [Except.toOption]
    simp only [get_all_desktop_fan_policies, List.mem_filterMap, key]
  · intro s
    constructor
    · intro hs
      unfold DesktopFanMode.from_wmi
      rw [hs]
      decide
    · intro hs
      unfold DesktopFanMode.from_wmi
      split
      · rename_i heq
        exact absurd heq hs
      · rfl
  · intro s
    constructor
    · intro hs
      unfold DesktopFanProfile.from_wmi
      rw [hs]
      decide
    · intro hs
      unfold DesktopFanProfile.from_wmi
      split
      · rename_i heq
        exact absurd heq hs
      · rfl

/-- The spec's desktop scenario reply object. -/
def desktopScenarioObj : WmiObject :=
  [("ErrorCode", .num 0), ("Mode", .str "PWM"), ("Profile", .str "STANDARD"),
   ("Source", .str "CPU"), ("LowLimit", .num 600)]

/-- A concrete desktop connection answering every method call with the
scenario reply. -/
def desktopPolicyConn : WmiConnection :=
  ⟨.Desktop "ASUSManagement", fun _ _ _ => .ok desktopScenarioObj⟩

/-- C5 witness: the scenario decode at a concrete desktop connection. -/
theorem desktop_fan_policy_spec_witness :
    get_desktop_fan_policy desktopPolicyConn 0 =
      .ok (some ⟨0, .Pwm, .Standard, "CPU", 600⟩) :=
  desktop_fan_policy_spec.1 "ASUSManagement" "CPU" desktopPolicyConn.exec 0 600 (by rfl)

end NoCrate
